import Mathlib

/-!
Verification of the KEF Connect Homey app (codecarve/kefconnect) against its
natural-language specification.  The definitions below are shallow embeddings
of the TypeScript source: `KEFBaseDevice.startPolling`, the `KEFSpeaker`
client operations (volume, mute, source, power, playback info, settings
snapshot), the `KEFModels` registry, and `KEFBaseDevice.updateAlbumArt`.
Stateful code is modelled by explicit state passing; network I/O is modelled
by passing the transport outcome in as data and recording issued requests in
an explicit log.
-/

namespace KefConnect

/-! ## Polling state machine (`KEFBaseDevice.startPolling`)

The `poll` closure in `startPolling` owns three pieces of mutable state:
`this.isAvailable`, the local `failureCount`, and the local `currentInterval`
(milliseconds).  Each tick either succeeds (the `try` branch) or fails (the
`catch` branch); `PollState.step` is a direct transcription of the two
branches.  `retryInterval` is the fixed 30000 ms cadence, `maxFailures = 3`.
-/

structure PollState where
  isAvailable : Bool
  failureCount : Nat
  currentInterval : Nat
  deriving Repr, DecidableEq

/-- Fixed retry cadence: `const retryInterval = 30000`. -/
def retryInterval : Nat := 30000

/-- Failure threshold: `const maxFailures = 3`. -/
def maxFailures : Nat := 3

/-- One execution of the `poll` closure in `KEFBaseDevice.startPolling`,
parameterised by the configured `normalInterval` and by whether the awaited
`getAllSettings` tick succeeded (`try` branch) or threw (`catch` branch). -/
def PollState.step (normalInterval : Nat) (success : Bool) (s : PollState) : PollState :=
  if success then
    -- try branch: if we get here, device is responding
    let s :=
      if !s.isAvailable then
        let s := { s with isAvailable := true, failureCount := 0 }
        -- switch back to normal polling interval
        if s.currentInterval ≠ normalInterval then
          { s with currentInterval := normalInterval }
        else s
      else s
    -- reset failure count on success
    { s with failureCount := 0 }
  else
    -- catch branch
    let s := { s with failureCount := s.failureCount + 1 }
    if s.failureCount ≥ maxFailures ∧ s.isAvailable then
      -- mark device as unavailable after max failures
      let s := { s with isAvailable := false }
      -- switch to slower retry interval
      if s.currentInterval ≠ retryInterval then
        { s with currentInterval := retryInterval }
      else s
    else s

/-- Iterated polling. -/
def PollState.run (normalInterval : Nat) (outcomes : List Bool) (s : PollState) : PollState :=
  outcomes.foldl (fun s ok => s.step normalInterval ok) s

/-! ## Volume (`KEFSpeaker.getVolume` / `KEFSpeaker.setVolume`) -/

/-- JavaScript `Math.round`: rounds to the nearest integer, halves toward
positive infinity. -/
def jsRound (q : ℚ) : ℤ := ⌊q + 1/2⌋

/-- The value `setVolume` writes to the device:
`Math.min(100, Math.max(0, Math.round(volume)))`. -/
def setVolumeValue (volume : ℚ) : ℤ := min 100 (max 0 (jsRound volume))

/-- The spec's formula, written from the spec's words: `clamp(round(v), 0, 100)`,
with `clamp(x, lo, hi) = max lo (min hi x)`. -/
def specClampRound (v : ℚ) : ℤ := max 0 (min 100 (jsRound v))

/-- Transport-level error (socket error or timeout in `request`). -/
structure TransportError where
  message : String
  deriving Repr, DecidableEq

/-- One element of the JSON array returned by `getData("player:volume")`:
`i32 = none` models `response[0].i32_ === undefined`. -/
structure VolumeEntry where
  i32 : Option ℤ
  deriving Repr, DecidableEq

/-- Result of `getData("player:volume")` as seen by `getVolume`: a transport
failure, or a decoded response (`none` models a falsy response, an entry list
models the JSON array; `[]` models a response with no `response[0]`). -/
abbrev VolumeReadResult := Except TransportError (Option (List VolumeEntry))

/-- `KEFSpeaker.getVolume`, as a function of the transport outcome.  The
`try` body returns `response[0].i32_` when the field is defined and `0`
otherwise; the `catch` branch rethrows as `Failed to get volume`. -/
def getVolume (resp : VolumeReadResult) : Except String ℤ :=
  match resp with
  | .error e => .error (s!"Failed to get volume: {e.message}")
  | .ok r =>
    match r with
    | some (entry :: _) =>
      match entry.i32 with
      | some v => .ok v
      | none => .ok 0
    | _ => .ok 0

/-- A device that faithfully stores and returns the written volume: after
`setVolume v` it answers the `player:volume` read with `[{ i32_ : w }]`
where `w` is the written value. -/
def faithfulVolumeResponse (v : ℚ) : VolumeReadResult :=
  .ok (some [⟨some (setVolumeValue v)⟩])

/-! ## Mute emulation (`KEFSpeaker.setMuted` / `KEFSpeaker.getMuted`)

The client keeps two private fields, `previousVolume : number = 50` and
`isMuted : boolean = false`.  We run the client against a faithful device
(one that stores and returns written volumes), so `getVolume()` inside
`setMuted` observes the device's current stored volume.  `setVolume` clamps
as in `setVolumeValue`; the arguments it receives here are integers, for
which `Math.round` is the identity. -/

/-- The client's private mutable fields: `lastActiveSource = "wifi"`,
`previousVolume = 50`, `isMuted = false`. -/
structure SpeakerState where
  lastActiveSource : String := "wifi"
  previousVolume : ℤ := 50
  isMuted : Bool := false
  deriving Repr, DecidableEq

/-- The faithful device: it stores the last written volume. -/
structure VolumeDevice where
  volume : ℤ
  deriving Repr, DecidableEq

/-- `setVolume` against the faithful device (integer argument). -/
def setVolumeDev (v : ℤ) (_d : VolumeDevice) : VolumeDevice :=
  ⟨min 100 (max 0 v)⟩

/-- `KEFSpeaker.setMuted` run against the faithful device.  `muted = true`:
observe the current volume, remember it in `previousVolume` when it is
strictly positive, write volume 0, set the shadow flag; `muted = false`:
write `previousVolume` back and clear the flag. -/
def setMuted (muted : Bool) (s : SpeakerState) (d : VolumeDevice) : SpeakerState × VolumeDevice :=
  if muted then
    let currentVolume := d.volume
    let s := if currentVolume > 0 then { s with previousVolume := currentVolume } else s
    ({ s with isMuted := true }, setVolumeDev 0 d)
  else
    ({ s with isMuted := false }, setVolumeDev s.previousVolume d)

/-- `KEFSpeaker.getMuted` against the faithful device:
`volume === 0 && this.isMuted`. -/
def getMuted (s : SpeakerState) (d : VolumeDevice) : Bool :=
  d.volume == 0 && s.isMuted

/-- Client operations relevant to the mute shadow state. -/
inductive MuteOp where
  | setVolume (v : ℤ)
  | muteOn
  | muteOff
  deriving Repr, DecidableEq

/-- One client operation against the faithful device. -/
def runMuteOp (op : MuteOp) (sd : SpeakerState × VolumeDevice) : SpeakerState × VolumeDevice :=
  match op with
  | .setVolume v => (sd.1, setVolumeDev v sd.2)
  | .muteOn => setMuted true sd.1 sd.2
  | .muteOff => setMuted false sd.1 sd.2

/-- A whole sequence of client operations. -/
def runMuteOps (ops : List MuteOp) (sd : SpeakerState × VolumeDevice) : SpeakerState × VolumeDevice :=
  match ops with
  | [] => sd
  | op :: rest => runMuteOps rest (runMuteOp op sd)

/-- The volumes that `getVolume()` observes inside each `setMuted(true)` call
of the run, in execution order.  This is the observation sequence the spec
speaks about. -/
def muteOnObservations (ops : List MuteOp) (sd : SpeakerState × VolumeDevice) : List ℤ :=
  match ops with
  | [] => []
  | op :: rest =>
    match op with
    | .muteOn => sd.2.volume :: muteOnObservations rest (runMuteOp op sd)
    | _ => muteOnObservations rest (runMuteOp op sd)

/-- The last strictly positive element of an observation list, with a
default for "none was ever observed > 0". -/
def lastPositive (default : ℤ) (l : List ℤ) : ℤ :=
  l.foldl (fun acc x => if x > 0 then x else acc) default

/-- What the claim predicts `setMuted(false)` writes after a run: the volume
observed immediately before (inside) the most recent `setMuted(true)`, or 50
if no volume strictly greater than 0 was ever observed. -/
def c2PredictedRestore (ops : List MuteOp) (sd : SpeakerState × VolumeDevice) : ℤ :=
  if (muteOnObservations ops sd).any (fun x => x > 0) then
    ((muteOnObservations ops sd).getLast?).getD 50
  else 50

/-! ## Model registry (`KEFModels`)

Transcription of the `KEF_MODELS` table and helpers from the module imported
by `KEFBaseDevice` (display name, ordered source list, capability list,
energy usage; unknown ids fall back to the `kef-ls50w2` entry). -/

structure EnergyUsage where
  usageOn : ℤ
  usageOff : ℤ
  deriving Repr, DecidableEq

structure KEFModelConfig where
  name : String
  sources : List String
  capabilities : List String
  energyUsage : Option EnergyUsage
  deriving Repr, DecidableEq

/-- JavaScript `String.prototype.toLowerCase` (ASCII case mapping, which is
all the registry's source names need). -/
def toLowerCase (s : String) : String := String.mk (s.data.map Char.toLower)

/-- Capability list shared by every entry of the table. -/
def kefCommonCapabilities : List String :=
  ["onoff", "volume_set", "source_input", "speaker_playing", "speaker_next",
   "speaker_prev", "speaker_track", "speaker_artist", "speaker_album",
   "speaker_shuffle", "speaker_repeat"]

/-- The `KEF_MODELS` table. -/
def KEF_MODELS : List (String × KEFModelConfig) :=
  [("kef-lsx2",
    { name := "KEF LSX II",
      sources := ["wifi", "bluetooth", "tv", "optical", "analog", "usb"],
      capabilities := kefCommonCapabilities,
      energyUsage := some ⟨100, 5⟩ }),
   ("kef-lsx2lt",
    { name := "KEF LSX II LT",
      sources := ["wifi", "bluetooth", "tv", "optical", "usb"],
      capabilities := kefCommonCapabilities,
      energyUsage := some ⟨100, 5⟩ }),
   ("kef-ls50w2",
    { name := "KEF LS50 Wireless II",
      sources := ["wifi", "bluetooth", "tv", "optical", "coaxial", "analog"],
      capabilities := kefCommonCapabilities,
      energyUsage := some ⟨190, 5⟩ }),
   ("kef-ls60",
    { name := "KEF LS60 Wireless",
      sources := ["wifi", "bluetooth", "tv", "optical", "coaxial", "analog"],
      capabilities := kefCommonCapabilities,
      energyUsage := some ⟨450, 2⟩ }),
   ("kef-lsx",
    { name := "KEF LSX",
      sources := ["wifi", "bluetooth", "tv", "optical", "analog"],
      capabilities := kefCommonCapabilities,
      energyUsage := some ⟨100, 5⟩ }),
   ("kef-xio",
    { name := "KEF XIO Soundbar",
      sources := ["wifi", "bluetooth", "tv", "optical"],
      capabilities := kefCommonCapabilities,
      energyUsage := some ⟨200, 5⟩ })]

/-- `getModelConfig`: table lookup with fallback to the LS50 Wireless II
entry (`KEF_MODELS[modelId] || KEF_MODELS["kef-ls50w2"]`). -/
def getModelConfig (modelId : String) : KEFModelConfig :=
  match (KEF_MODELS.lookup modelId).or (KEF_MODELS.lookup "kef-ls50w2") with
  | some c => c
  | none => ⟨"", [], [], none⟩

/-- `isSourceSupported`: case-insensitive containment in the model's source
list (`config.sources.includes(source.toLowerCase())`). -/
def isSourceSupported (modelId source : String) : Bool :=
  (getModelConfig modelId).sources.contains (toLowerCase source)

/-! ## Set-source command handler (`KEFBaseDevice.onCapabilitySource`)

The handler validates against the registry before issuing its single
`setData` write; on validation failure it throws (the `catch` rethrows a
generic message) having made no transport call.  The write payload is the
typed `{"type":"kefPhysicalSource","kefPhysicalSource":<source>}` value. -/

/-- A typed `setData` payload. -/
inductive KefWriteValue where
  | physicalSource (s : String)
  | i32 (v : ℤ)
  deriving Repr, DecidableEq

/-- One `setData` request: URL path plus decoded value payload. -/
structure SetDataCall where
  path : String
  value : KefWriteValue
  deriving Repr, DecidableEq

def physicalSourcePath : String := "settings:/kef/play/physicalSource"
def volumePath : String := "player:volume"
def subwooferGainPath : String := "settings:/kef/dsp/subwooferGain"

/-- `KEFSpeaker.setSource`: one write of the physical-source field. -/
def setSourceCalls (source : String) : List SetDataCall :=
  [⟨physicalSourcePath, .physicalSource source⟩]

/-- `KEFBaseDevice.onCapabilitySource`: result (`none` = accepted,
`some msg` = thrown error) together with the transport calls issued. -/
def onCapabilitySource (modelId value : String) :
    Option String × List SetDataCall :=
  if !isSourceSupported modelId value then
    -- validation throw, caught and rethrown by the handler's catch block
    (some "Failed to set source", [])
  else
    (none, setSourceCalls value)

/-! ## Speaker reads with a request log
    (`getPowerState`, `getSource`, `getMuted`, `getSubwooferGain`,
    `getAllSettings`)

The device is modelled by the decoded outcome of each `getData` path:
`.error` is a transport failure; `.ok none` models a response whose expected
field is missing or falsy; `.ok (some v)` models `[{ <field>: v }]`.  Each
operation additionally returns the list of request paths it issued, so that
"no transport request is ever issued for path p" is `p ∉ log`. -/

/-- Per-path decoded responses of the device under test. -/
structure DeviceResponses where
  physicalSource : Except TransportError (Option String)
  volume : VolumeReadResult
  subwooferGain : Except TransportError (Option ℤ)

/-- `KEFSpeaker.getPowerState`: true unless the physical source reads
`"standby"` (case-insensitively); missing field defaults to true; a transport
failure returns false (never throws). -/
def getPowerState (d : DeviceResponses) : Bool × List String :=
  match d.physicalSource with
  | .error _ => (false, [physicalSourcePath])
  | .ok (some v) => (toLowerCase v != "standby", [physicalSourcePath])
  | .ok none => (true, [physicalSourcePath])

/-- `KEFSpeaker.getSource`: lowercases the read value, updates
`lastActiveSource` when the value is not `"standby"`, defaults to `"wifi"`
on a shape mismatch, and rethrows transport failures. -/
def getSource (d : DeviceResponses) (c : SpeakerState) :
    Except String String × SpeakerState × List String :=
  match d.physicalSource with
  | .error e => (.error s!"Failed to get source: {e.message}", c, [physicalSourcePath])
  | .ok (some v) =>
    let source := toLowerCase v
    let c := if source != "standby" then { c with lastActiveSource := source } else c
    (.ok source, c, [physicalSourcePath])
  | .ok none => (.ok "wifi", c, [physicalSourcePath])

/-- `getVolume` with its request log. -/
def getVolumeLogged (d : DeviceResponses) : Except String ℤ × List String :=
  (getVolume d.volume, [volumePath])

/-- `KEFSpeaker.getMuted` over the transport: it reads the volume (one
`player:volume` request) and combines it with the shadow flag; a volume read
failure propagates. -/
def getMutedLogged (d : DeviceResponses) (c : SpeakerState) :
    Except String Bool × List String :=
  match getVolume d.volume with
  | .error e => (.error e, [volumePath])
  | .ok v => (.ok (v == 0 && c.isMuted), [volumePath])

/-- `KEFSpeaker.getSubwooferGain`: returns the read gain, 0 on a shape
mismatch, and 0 on a transport failure (caught internally). -/
def getSubwooferGain (d : DeviceResponses) : ℤ × List String :=
  match d.subwooferGain with
  | .error _ => (0, [subwooferGainPath])
  | .ok (some g) => (g, [subwooferGainPath])
  | .ok none => (0, [subwooferGainPath])

/-- The `KEFSettings` snapshot assembled by `getAllSettings`; `none` models
a field left `undefined`. -/
structure KEFSettingsSnap where
  volume : Option ℤ := none
  muted : Option Bool := none
  source : Option String := none
  standby : Option Bool := none
  subwooferGain : Option ℤ := none
  deriving Repr, DecidableEq

/-- `KEFSpeaker.getAllSettings`: reads power state and source, then — only
when the device is not in standby — volume, mute and subwoofer gain, each
read guarded as in the source (`try`/`catch` structure preserved).  Returns
the snapshot, the updated client state and the request log. -/
def getAllSettings (d : DeviceResponses) (c : SpeakerState) :
    KEFSettingsSnap × SpeakerState × List String :=
  let (powerState, log1) := getPowerState d
  let standby := !powerState
  let settings : KEFSettingsSnap := { standby := some standby }
  match getSource d c with
  | (.error _, c1, log2) =>
    -- outer catch: return minimal settings, assume standby
    ({ settings with standby := some true }, c1, log1 ++ log2)
  | (.ok src, c1, log2) =>
    let settings := { settings with source := some src }
    if !standby && src != "standby" then
      let (volRes, log3) := getVolumeLogged d
      match volRes with
      | .error _ =>
        -- inner catch: volume/mute might fail, continue with other settings
        let (gain, log4) := getSubwooferGain d
        ({ settings with subwooferGain := some gain }, c1, log1 ++ log2 ++ log3 ++ log4)
      | .ok v =>
        let settings := { settings with volume := some v }
        let (mutedRes, log4) := getMutedLogged d c1
        match mutedRes with
        | .error _ =>
          let (gain, log5) := getSubwooferGain d
          ({ settings with subwooferGain := some gain }, c1,
            log1 ++ log2 ++ log3 ++ log4 ++ log5)
        | .ok m =>
          let settings := { settings with muted := some m }
          let (gain, log5) := getSubwooferGain d
          ({ settings with subwooferGain := some gain }, c1,
            log1 ++ log2 ++ log3 ++ log4 ++ log5)
    else
      (settings, c1, log1 ++ log2)

/-! ## Power control (`KEFSpeaker.setPowerState`) -/

/-- `KEFSpeaker.setPowerState`: `on = true` re-selects `lastActiveSource`
via `setSource`; `on = false` (here `turnOn`) writes the physical source `"standby"`.
Neither branch touches the client state. -/
def setPowerState (turnOn : Bool) (c : SpeakerState) : SpeakerState × List SetDataCall :=
  if turnOn then
    (c, setSourceCalls c.lastActiveSource)
  else
    (c, [⟨physicalSourcePath, .physicalSource "standby"⟩])

/-! ## Playback metadata (`KEFSpeaker.getPlaybackInfo`)

The `player:player/data` payload is modelled with every field the extractor
touches; `none` models an absent field.  JavaScript `if (x)` guards on
strings treat the empty string as absent and on numbers treat 0 as absent,
which `jsTruthyStr` / `jsTruthyInt` capture. -/

/-- JavaScript truthiness of an optional string field. -/
def jsTruthyStr : Option String → Bool
  | none => false
  | some s => s != ""

/-- JavaScript truthiness of an optional numeric field. -/
def jsTruthyInt : Option ℤ → Bool
  | none => false
  | some n => n != 0

/-- Title/artist/album triple found under `metadata` or `metaData`. -/
structure MetaDataFields where
  title : Option String := none
  artist : Option String := none
  album : Option String := none
  deriving Repr, DecidableEq

/-- One entry of `trackRoles.mediaData.resources`. -/
structure MediaResource where
  duration : Option ℤ := none
  deriving Repr, DecidableEq

/-- The `trackRoles.mediaData` object. -/
structure MediaData where
  metaData : Option MetaDataFields := none
  resources : Option (List MediaResource) := none
  deriving Repr, DecidableEq

/-- The `trackRoles` object. -/
structure TrackRoles where
  title : Option String := none
  mediaData : Option MediaData := none
  icon : Option String := none
  deriving Repr, DecidableEq

/-- One element of the `player:player/data` response array. -/
structure PlayerData where
  state : Option String := none
  trackRoles : Option TrackRoles := none
  title : Option String := none
  artist : Option String := none
  album : Option String := none
  metadata : Option MetaDataFields := none
  metaData : Option MetaDataFields := none
  position : Option ℤ := none
  deriving Repr, DecidableEq

/-- The `KEFPlaybackInfo` record `getPlaybackInfo` assembles. -/
structure KEFPlaybackInfo where
  isPlaying : Bool
  title : Option String := none
  artist : Option String := none
  album : Option String := none
  duration : Option ℤ := none
  position : Option ℤ := none
  source : Option String := none
  albumArtUrl : Option String := none
  deriving Repr, DecidableEq

/-- `KEFSpeaker.getPlaybackInfo`.  `isPlayingResult` and `sourceResult` stand
for the awaited `isPlaying()` and `getSource()` sub-calls; `trackResponse`
is the `player:player/data` read.  A `state === "stopped"` response returns
early with no metadata; otherwise title, artist and album are probed through
`trackRoles`, the flat top-level fields, `metadata` and `metaData`, in that
order, first truthy match per field winning. -/
def getPlaybackInfo (isPlayingResult : Bool) (sourceResult : Except String String)
    (trackResponse : Except TransportError (Option (List PlayerData))) : KEFPlaybackInfo :=
  let info : KEFPlaybackInfo := { isPlaying := isPlayingResult }
  match sourceResult with
  | .error _ => info
  | .ok src =>
    let info := { info with source := some src }
    match trackResponse with
    | .error _ => info
    | .ok r =>
      match r with
      | some (track :: _) =>
        -- skip if player is stopped
        if track.state == some "stopped" then info
        else
          -- path 1: trackRoles
          let info :=
            match track.trackRoles with
            | none => info
            | some tr =>
              let info :=
                if jsTruthyStr tr.title then { info with title := tr.title } else info
              let info :=
                match tr.mediaData with
                | some md =>
                  match md.metaData with
                  | some meta =>
                    let info :=
                      if jsTruthyStr meta.artist then { info with artist := meta.artist }
                      else info
                    if jsTruthyStr meta.album then { info with album := meta.album }
                    else info
                  | none => info
                | none => info
              let info :=
                match tr.mediaData with
                | some md =>
                  match md.resources with
                  | some (res :: _) =>
                    if jsTruthyInt res.duration then { info with duration := res.duration }
                    else info
                  | _ => info
                | none => info
              if jsTruthyStr tr.icon then { info with albumArtUrl := tr.icon } else info
          -- path 2: direct top-level fields
          let info :=
            if !jsTruthyStr info.title && jsTruthyStr track.title then
              { info with title := track.title } else info
          let info :=
            if !jsTruthyStr info.artist && jsTruthyStr track.artist then
              { info with artist := track.artist } else info
          let info :=
            if !jsTruthyStr info.album && jsTruthyStr track.album then
              { info with album := track.album } else info
          -- path 3: metadata
          let info :=
            match track.metadata with
            | none => info
            | some meta =>
              let info :=
                if !jsTruthyStr info.title && jsTruthyStr meta.title then
                  { info with title := meta.title } else info
              let info :=
                if !jsTruthyStr info.artist && jsTruthyStr meta.artist then
                  { info with artist := meta.artist } else info
              if !jsTruthyStr info.album && jsTruthyStr meta.album then
                { info with album := meta.album } else info
          -- path 4: metaData (different casing)
          let info :=
            match track.metaData with
            | none => info
            | some meta =>
              let info :=
                if !jsTruthyStr info.title && jsTruthyStr meta.title then
                  { info with title := meta.title } else info
              let info :=
                if !jsTruthyStr info.artist && jsTruthyStr meta.artist then
                  { info with artist := meta.artist } else info
              if !jsTruthyStr info.album && jsTruthyStr meta.album then
                { info with album := meta.album } else info
          -- position might be at top level
          if jsTruthyInt track.position then { info with position := track.position } else info
      | _ => info

/-- The four equivalent metadata shapes of the claim, carrying title `t`,
artist `a`, album `b`.  Shape 1: flat top-level fields. -/
def flatShape (t a b : String) : PlayerData :=
  { state := some "playing", title := some t, artist := some a, album := some b }

/-- Shape 2: `trackRoles.title` with artist/album under
`trackRoles.mediaData.metaData`. -/
def trackRolesShape (t a b : String) : PlayerData :=
  { state := some "playing",
    trackRoles := some
      { title := some t,
        mediaData := some { metaData := some { artist := some a, album := some b } } } }

/-- Shape 3: fields under `metadata`. -/
def metadataShape (t a b : String) : PlayerData :=
  { state := some "playing",
    metadata := some { title := some t, artist := some a, album := some b } }

/-- Shape 4: fields under `metaData`. -/
def metaDataShape (t a b : String) : PlayerData :=
  { state := some "playing",
    metaData := some { title := some t, artist := some a, album := some b } }

/-! ## Album art (`KEFBaseDevice.updateAlbumArt`)

One execution of `updateAlbumArt` inside a poll cycle.  The device-side
lifecycle state is `currentAlbumArtUrl` (plus the two guards); the observable
actions are the `getSource` read, the `getAlbumArtUrl` request, and the
`ImageUtil.updateAlbumArt`/`setAlbumArtImage` display update (with `none`
meaning a clear). -/

/-- Lifecycle state touched by `updateAlbumArt`. -/
structure AlbumArtState where
  albumArtImageInit : Bool
  isAvailable : Bool
  currentAlbumArtUrl : Option String
  deriving Repr, DecidableEq

/-- Observable actions of one `updateAlbumArt` execution. -/
inductive ArtAction where
  | readSource
  | fetchArtUrl
  | displayArt (url : Option String)
  deriving Repr, DecidableEq

/-- `KEFBaseDevice.updateAlbumArt`: skip when the image is uninitialized or
the device unavailable; for `wifi`/`bluetooth` fetch the art URL and update
the display when it changed; for any other source clear the art once if it
was previously set.  `fetchedUrl` stands for the awaited
`speaker.getAlbumArtUrl()` result. -/
def updateAlbumArt (s : AlbumArtState) (source : String) (fetchedUrl : Option String) :
    AlbumArtState × List ArtAction :=
  if !s.albumArtImageInit then (s, [])
  else if !s.isAvailable then (s, [])
  else
    if source == "wifi" || source == "bluetooth" then
      if fetchedUrl ≠ s.currentAlbumArtUrl then
        ({ s with currentAlbumArtUrl := fetchedUrl },
          [.readSource, .fetchArtUrl, .displayArt fetchedUrl])
      else
        (s, [.readSource, .fetchArtUrl])
    else
      if s.currentAlbumArtUrl ≠ none then
        ({ s with currentAlbumArtUrl := none }, [.readSource, .displayArt none])
      else
        (s, [.readSource])

/-- Iterated album-art refreshes over a sequence of polled
(source, fetchedUrl) observations, collecting all actions. -/
def updateAlbumArtRun (s : AlbumArtState) : List (String × Option String) →
    AlbumArtState × List ArtAction
  | [] => (s, [])
  | q :: rest =>
    let step := updateAlbumArt s q.1 q.2
    let next := updateAlbumArtRun step.1 rest
    (next.1, step.2 ++ next.2)

/-! ## Claim theorems -/

/-- C1: from the Available state (failure counter 0, normal cadence), one or
two consecutive poll failures leave the device Available; the third failure
transitions it to Unavailable and switches the poll interval to the fixed
30-second retry cadence; from Unavailable, the very next successful poll
transitions back to Available, resets the consecutive-failure counter to
zero, and restores the configured normal poll interval. -/
theorem c1_poll_availability_state_machine (normalInterval : ℕ) :
    let s0 : PollState := ⟨true, 0, normalInterval⟩
    let s1 := s0.step normalInterval false
    let s2 := s1.step normalInterval false
    let s3 := s2.step normalInterval false
    let s4 := s3.step normalInterval true
    (s1.isAvailable = true ∧ s2.isAvailable = true) ∧
    (s3.isAvailable = false ∧ s3.currentInterval = 30000) ∧
    (s4.isAvailable = true ∧ s4.failureCount = 0 ∧ s4.currentInterval = normalInterval) := by
  intro s0 s1 s2 s3 s4
  by_cases h : normalInterval = 30000
  · simp [s1, s2, s3, s4, s0, PollState.step, retryInterval, maxFailures, h]
  · simp [s1, s2, s3, s4, s0, PollState.step, retryInterval, maxFailures, h,
      (Ne.symm h : 30000 ≠ normalInterval)]

/-- C3: the value `setVolume v` writes is an integer in `[0, 100]`, equal to
`clamp(round v, 0, 100)`, and a subsequent `getVolume` against a device that
faithfully stores and returns the written value yields exactly that value. -/
theorem c3_volume_clamp_round (v : ℚ) :
    setVolumeValue v = specClampRound v ∧
    0 ≤ setVolumeValue v ∧ setVolumeValue v ≤ 100 ∧
    getVolume (faithfulVolumeResponse v) = .ok (specClampRound v) := by
  have heq : setVolumeValue v = specClampRound v := by
    unfold setVolumeValue specClampRound
    rcases le_total (jsRound v) 0 with h | h <;> rcases le_total (jsRound v) 100 with h2 | h2 <;>
      omega
  refine ⟨heq, ?_, ?_, ?_⟩
  · unfold setVolumeValue; omega
  · unfold setVolumeValue; omega
  · show Except.ok (setVolumeValue v) = Except.ok (specClampRound v)
    rw [heq]

/-- C4 counterexample: a successful transport response whose first element
lacks the `i32_` field makes `getVolume` return the silent default `0`
rather than raise an error, contradicting the claim. -/
theorem c4_counterexample :
    getVolume (.ok (some [⟨none⟩])) = .ok 0 ∧
    ∀ msg, getVolume (.ok (some [⟨none⟩])) ≠ .error msg := by
  refine ⟨rfl, fun msg h => ?_⟩
  simp [getVolume] at h

/-- C4 amended: `getVolume` raises an error exactly when the transport call
fails; when the transport succeeds but the response is missing the expected
integer field (absent field, empty array, or non-array response), it returns
the default `0`. -/
theorem c4_amended_volume_read_error :
    (∀ e, getVolume (.error e) = .error s!"Failed to get volume: {e.message}") ∧
    (∀ rest, getVolume (.ok (some (⟨none⟩ :: rest))) = .ok 0) ∧
    getVolume (.ok (some [])) = .ok 0 ∧
    getVolume (.ok none) = .ok 0 := by
  exact ⟨fun _ => rfl, fun _ => rfl, rfl, rfl⟩

/-- Helper: `lastPositive` steps through a cons as a fold. -/
theorem lastPositive_cons (d x : ℤ) (l : List ℤ) :
    lastPositive d (x :: l) = lastPositive (if x > 0 then x else d) l := rfl

/-- Helper: a run distributes over list append. -/
theorem runMuteOps_append (l1 l2 : List MuteOp) (sd : SpeakerState × VolumeDevice) :
    runMuteOps (l1 ++ l2) sd = runMuteOps l2 (runMuteOps l1 sd) := by
  induction l1 generalizing sd with
  | nil => rfl
  | cons op rest ih => simp [runMuteOps, ih]

/-- Helper: the tracked `previousVolume` equals the last strictly positive
volume observed inside a `setMuted(true)` call, defaulting to the starting
value when no positive volume was observed. -/
theorem runMuteOps_previousVolume (ops : List MuteOp) (sd : SpeakerState × VolumeDevice) :
    (runMuteOps ops sd).1.previousVolume =
      lastPositive sd.1.previousVolume (muteOnObservations ops sd) := by
  induction ops generalizing sd with
  | nil => rfl
  | cons op rest ih =>
    cases op with
    | setVolume v =>
      simpa [runMuteOps, muteOnObservations, runMuteOp] using
        ih (runMuteOp (.setVolume v) sd)
    | muteOff =>
      simpa [runMuteOps, muteOnObservations, runMuteOp, setMuted] using
        ih (runMuteOp .muteOff sd)
    | muteOn =>
      rw [show runMuteOps (.muteOn :: rest) sd = runMuteOps rest (runMuteOp .muteOn sd)
            from rfl,
        ih,
        show muteOnObservations (.muteOn :: rest) sd
            = sd.2.volume :: muteOnObservations rest (runMuteOp .muteOn sd) from rfl,
        lastPositive_cons]
      congr 1
      by_cases h : sd.2.volume > 0 <;> simp [runMuteOp, setMuted, h]

/-- Helper: `lastPositive` of a positive default is positive. -/
theorem lastPositive_pos (d : ℤ) (l : List ℤ) (hd : 0 < d) : 0 < lastPositive d l := by
  induction l generalizing d with
  | nil => exact hd
  | cons x xs ih =>
    rw [lastPositive_cons]
    exact ih _ (by split <;> omega)

/-- Helper: `lastPositive` stays below 100 when default and elements do. -/
theorem lastPositive_le (d : ℤ) (l : List ℤ) (hd : d ≤ 100)
    (hl : ∀ x ∈ l, x ≤ 100) : lastPositive d l ≤ 100 := by
  induction l generalizing d with
  | nil => exact hd
  | cons x xs ih =>
    rw [lastPositive_cons]
    refine ih _ ?_ (fun y hy => hl y (by simp [hy]))
    have := hl x (by simp)
    split <;> omega

/-- Helper: whatever the operation, the device volume afterwards is clamped
below 100. -/
theorem runMuteOp_volume_le (op : MuteOp) (sd : SpeakerState × VolumeDevice) :
    (runMuteOp op sd).2.volume ≤ 100 := by
  cases op <;> simp [runMuteOp, setMuted, setVolumeDev]

/-- Helper: every volume observed inside a `setMuted(true)` call is at most
100, provided the starting device volume is. -/
theorem muteOnObservations_le (ops : List MuteOp) (sd : SpeakerState × VolumeDevice)
    (h : sd.2.volume ≤ 100) : ∀ x ∈ muteOnObservations ops sd, x ≤ 100 := by
  induction ops generalizing sd with
  | nil => simp [muteOnObservations]
  | cons op rest ih =>
    cases op with
    | setVolume v =>
      exact fun x hx => ih (runMuteOp (.setVolume v) sd) (runMuteOp_volume_le _ sd) x hx
    | muteOff =>
      exact fun x hx => ih (runMuteOp .muteOff sd) (runMuteOp_volume_le _ sd) x hx
    | muteOn =>
      intro x hx
      rw [show muteOnObservations (.muteOn :: rest) sd
            = sd.2.volume :: muteOnObservations rest (runMuteOp .muteOn sd) from rfl] at hx
      rcases List.mem_cons.mp hx with hx | hx
      · omega
      · exact ih (runMuteOp .muteOn sd) (runMuteOp_volume_le _ sd) x hx

/-- The trace on which the claim's predicted restore value diverges from the
code: mute at volume 30, unmute, set volume to 0, mute again. -/
def c2Trace : List MuteOp := [.setVolume 30, .muteOn, .muteOff, .setVolume 0, .muteOn]

/-- C2 counterexample: after `c2Trace`, the volume observed immediately
before (inside) the most recent `setMuted(true)` is 0 and a positive volume
was observed earlier, so the claim predicts `setMuted(false)` writes 0 — but
the code restores the earlier positive volume 30. -/
theorem c2_counterexample :
    (runMuteOps (c2Trace ++ [.muteOff]) ({}, ⟨0⟩)).2.volume = 30 ∧
    c2PredictedRestore c2Trace ({}, ⟨0⟩) = 0 ∧
    (runMuteOps (c2Trace ++ [.muteOff]) ({}, ⟨0⟩)).2.volume ≠
      c2PredictedRestore c2Trace ({}, ⟨0⟩) := by
  refine ⟨by decide, by decide, by decide⟩

/-- C2 amended: `setMuted(true)` followed by `getMuted()` returns true; and
`setMuted(false)` sets the device volume to the most recent volume strictly
greater than 0 that `getVolume()` observed inside a `setMuted(true)` call
(or to 50 if no such positive volume was ever observed), and afterwards the
mute shadow flag is false. -/
theorem c2_amended_mute_roundtrip (ops : List MuteOp) (d0 : VolumeDevice)
    (_hlo : 0 ≤ d0.volume) (hhi : d0.volume ≤ 100) :
    getMuted (runMuteOps (ops ++ [.muteOn]) ({}, d0)).1
        (runMuteOps (ops ++ [.muteOn]) ({}, d0)).2 = true ∧
    (runMuteOps (ops ++ [.muteOff]) ({}, d0)).2.volume
      = lastPositive 50 (muteOnObservations ops ({}, d0)) ∧
    (runMuteOps (ops ++ [.muteOff]) ({}, d0)).1.isMuted = false := by
  rw [runMuteOps_append, runMuteOps_append]
  refine ⟨?_, ?_, ?_⟩
  · simp [runMuteOps, runMuteOp, setMuted, getMuted, setVolumeDev]
  · have hprev := runMuteOps_previousVolume ops ({}, d0)
    have hpos : 0 < (runMuteOps ops (({} : SpeakerState), d0)).1.previousVolume := by
      rw [hprev]; exact lastPositive_pos _ _ (by norm_num)
    have hle : (runMuteOps ops (({} : SpeakerState), d0)).1.previousVolume ≤ 100 := by
      rw [hprev]
      exact lastPositive_le _ _ (by norm_num) (muteOnObservations_le ops _ hhi)
    rw [show (runMuteOps [.muteOff] (runMuteOps ops (({} : SpeakerState), d0))).2.volume
          = min 100 (max 0 (runMuteOps ops (({} : SpeakerState), d0)).1.previousVolume)
          from rfl, ← hprev]
    omega
  · simp [runMuteOps, runMuteOp, setMuted]

/-- Witness for `c2_amended_mute_roundtrip` at the empty trace from a silent
device. -/
theorem c2_amended_mute_roundtrip_witness :
    ((0 : ℤ) ≤ (0 : ℤ) ∧ (0 : ℤ) ≤ 100) ∧
    (getMuted (runMuteOps ([] ++ [.muteOn]) ({}, ⟨0⟩)).1
        (runMuteOps ([] ++ [.muteOn]) ({}, ⟨0⟩)).2 = true ∧
     (runMuteOps ([] ++ [.muteOff]) ({}, ⟨0⟩)).2.volume
       = lastPositive 50 (muteOnObservations [] ({}, ⟨0⟩)) ∧
     (runMuteOps ([] ++ [.muteOff]) ({}, ⟨0⟩)).1.isMuted = false) :=
  ⟨by decide, c2_amended_mute_roundtrip [] ⟨0⟩ (by decide) (by decide)⟩

/-- C10: along every operation sequence from a fresh client, the remembered
`previousVolume` stays strictly positive (it starts at 50 and is only
overwritten by observed volumes strictly greater than 0), so `setMuted(false)`
never writes volume 0 to the device. -/
theorem c10_previous_volume_positive (ops : List MuteOp) (d0 : VolumeDevice) :
    0 < (runMuteOps ops ({}, d0)).1.previousVolume ∧
    0 < (runMuteOps (ops ++ [.muteOff]) ({}, d0)).2.volume := by
  have hpos : 0 < (runMuteOps ops (({} : SpeakerState), d0)).1.previousVolume := by
    rw [runMuteOps_previousVolume]
    exact lastPositive_pos _ _ (by norm_num)
  refine ⟨hpos, ?_⟩
  rw [runMuteOps_append,
    show (runMuteOps [.muteOff] (runMuteOps ops (({} : SpeakerState), d0))).2.volume
      = min 100 (max 0 (runMuteOps ops (({} : SpeakerState), d0)).1.previousVolume)
      from rfl]
  omega

/-- C5: for every source value not contained (case-insensitively) in the
resolved model's configured source list, the set-source command handler
rejects the command locally with a validation error and issues zero
transport calls. -/
theorem c5_unsupported_source_rejected_locally (modelId value : String)
    (h : isSourceSupported modelId value = false) :
    onCapabilitySource modelId value = (some "Failed to set source", []) ∧
    (onCapabilitySource modelId value).2 = [] := by
  refine ⟨?_, ?_⟩ <;> simp [onCapabilitySource, h]

/-- Witness for `c5_unsupported_source_rejected_locally`: `setSource("usb")`
against model `kef-xio` is rejected with zero transport calls. -/
theorem c5_unsupported_source_rejected_locally_witness :
    isSourceSupported "kef-xio" "usb" = false ∧
    (onCapabilitySource "kef-xio" "usb" = (some "Failed to set source", []) ∧
     (onCapabilitySource "kef-xio" "usb").2 = []) :=
  ⟨by decide, c5_unsupported_source_rejected_locally "kef-xio" "usb" (by decide)⟩

/-- C7: whenever the device reports itself in standby — the power-state read
comes back false, or the physical source reads `"standby"` — `getAllSettings`
issues no transport request for the volume path or the DSP (subwoofer gain)
path: those reads are skipped entirely. -/
theorem c7_standby_skips_volume_and_dsp_reads (d : DeviceResponses) (c : SpeakerState)
    (h : (getPowerState d).1 = false ∨
         ∃ s, d.physicalSource = Except.ok (some s) ∧ toLowerCase s = "standby") :
    volumePath ∉ (getAllSettings d c).2.2 ∧
    subwooferGainPath ∉ (getAllSettings d c).2.2 := by
  cases hps : d.physicalSource with
  | error e =>
    simp [getAllSettings, getSource, getPowerState, hps, physicalSourcePath,
      volumePath, subwooferGainPath]
  | ok r =>
    cases r with
    | none =>
      rcases h with h | ⟨s, hs, _⟩
      · simp [getPowerState, hps] at h
      · rw [hps] at hs; simp at hs
    | some s =>
      have hs : toLowerCase s = "standby" := by
        rcases h with h | ⟨s', hs', hl⟩
        · simpa [getPowerState, hps] using h
        · rw [hps] at hs'
          obtain rfl : s' = s := by simpa using hs'.symm
          exact hl
      simp [getAllSettings, getSource, getPowerState, getVolumeLogged, getMutedLogged,
        getSubwooferGain, hps, hs, physicalSourcePath, volumePath, subwooferGainPath]

/-- Witness for `c7_standby_skips_volume_and_dsp_reads`: a device whose
physical source reads `"standby"`. -/
theorem c7_standby_skips_volume_and_dsp_reads_witness :
    (((getPowerState ⟨Except.ok (some "standby"), Except.ok none, Except.ok none⟩).1 = false ∨
      ∃ s, (⟨Except.ok (some "standby"), Except.ok none, Except.ok none⟩ :
              DeviceResponses).physicalSource = Except.ok (some s) ∧
           toLowerCase s = "standby")) ∧
    (volumePath ∉ (getAllSettings ⟨Except.ok (some "standby"), Except.ok none,
        Except.ok none⟩ {}).2.2 ∧
     subwooferGainPath ∉ (getAllSettings ⟨Except.ok (some "standby"), Except.ok none,
        Except.ok none⟩ {}).2.2) :=
  ⟨Or.inr ⟨"standby", rfl, by decide⟩,
   c7_standby_skips_volume_and_dsp_reads _ {} (Or.inr ⟨"standby", rfl, by decide⟩)⟩

/-- C8: after a successful `getSource()` read observing a non-standby value,
`setPowerState(false)` writes the physical source `"standby"` and leaves the
remembered last active source untouched, and the following
`setPowerState(true)` re-selects exactly the observed source (not a fixed
default). -/
theorem c8_power_cycle_restores_last_source (d : DeviceResponses) (c : SpeakerState)
    (s : String) (hd : d.physicalSource = Except.ok (some s))
    (hs : toLowerCase s ≠ "standby") :
    (getSource d c).1 = Except.ok (toLowerCase s) ∧
    ((getSource d c).2.1).lastActiveSource = toLowerCase s ∧
    setPowerState false ((getSource d c).2.1) = (((getSource d c).2.1),
      [⟨physicalSourcePath, KefWriteValue.physicalSource "standby"⟩]) ∧
    (setPowerState true ((getSource d c).2.1)).2 =
      [⟨physicalSourcePath, KefWriteValue.physicalSource (toLowerCase s)⟩] := by
  simp [getSource, hd, hs, setPowerState, setSourceCalls]

/-- Witness for `c8_power_cycle_restores_last_source` with observed source
`"tv"`. -/
theorem c8_power_cycle_restores_last_source_witness :
    ((⟨Except.ok (some "tv"), Except.ok none, Except.ok none⟩ :
        DeviceResponses).physicalSource = Except.ok (some "tv") ∧
     toLowerCase "tv" ≠ "standby") ∧
    ((getSource ⟨Except.ok (some "tv"), Except.ok none, Except.ok none⟩ {}).1 =
        Except.ok (toLowerCase "tv") ∧
     ((getSource ⟨Except.ok (some "tv"), Except.ok none, Except.ok none⟩ {}).2.1).lastActiveSource =
        toLowerCase "tv" ∧
     setPowerState false ((getSource ⟨Except.ok (some "tv"), Except.ok none,
        Except.ok none⟩ {}).2.1) =
       (((getSource ⟨Except.ok (some "tv"), Except.ok none, Except.ok none⟩ {}).2.1),
        [⟨physicalSourcePath, KefWriteValue.physicalSource "standby"⟩]) ∧
     (setPowerState true ((getSource ⟨Except.ok (some "tv"), Except.ok none,
        Except.ok none⟩ {}).2.1)).2 =
       [⟨physicalSourcePath, KefWriteValue.physicalSource (toLowerCase "tv")⟩]) :=
  ⟨⟨rfl, by decide⟩,
   c8_power_cycle_restores_last_source _ {} "tv" rfl (by decide)⟩

/-- C6: the four known metadata shapes carrying the same non-empty title,
artist and album yield identical extracted values; and a `state = "stopped"`
response short-circuits to a nothing-playing result with no metadata. -/
theorem c6_playback_metadata_shapes (t a b : String)
    (ht : t ≠ "") (ha : a ≠ "") (hb : b ≠ "") :
    ((getPlaybackInfo true (.ok "wifi") (.ok (some [flatShape t a b]))).title = some t ∧
     (getPlaybackInfo true (.ok "wifi") (.ok (some [flatShape t a b]))).artist = some a ∧
     (getPlaybackInfo true (.ok "wifi") (.ok (some [flatShape t a b]))).album = some b) ∧
    ((getPlaybackInfo true (.ok "wifi") (.ok (some [trackRolesShape t a b]))).title = some t ∧
     (getPlaybackInfo true (.ok "wifi") (.ok (some [trackRolesShape t a b]))).artist = some a ∧
     (getPlaybackInfo true (.ok "wifi") (.ok (some [trackRolesShape t a b]))).album = some b) ∧
    ((getPlaybackInfo true (.ok "wifi") (.ok (some [metadataShape t a b]))).title = some t ∧
     (getPlaybackInfo true (.ok "wifi") (.ok (some [metadataShape t a b]))).artist = some a ∧
     (getPlaybackInfo true (.ok "wifi") (.ok (some [metadataShape t a b]))).album = some b) ∧
    ((getPlaybackInfo true (.ok "wifi") (.ok (some [metaDataShape t a b]))).title = some t ∧
     (getPlaybackInfo true (.ok "wifi") (.ok (some [metaDataShape t a b]))).artist = some a ∧
     (getPlaybackInfo true (.ok "wifi") (.ok (some [metaDataShape t a b]))).album = some b) ∧
    (∀ (ip : Bool) (src : String) (track : PlayerData) (rest : List PlayerData),
      track.state = some "stopped" →
      getPlaybackInfo ip (.ok src) (.ok (some (track :: rest))) =
        { isPlaying := ip, source := some src }) := by
  refine ⟨?_, ?_, ?_, ?_, ?_⟩
  · refine ⟨?_, ?_, ?_⟩ <;>
      simp [getPlaybackInfo, flatShape, jsTruthyStr, jsTruthyInt, ht, ha, hb]
  · refine ⟨?_, ?_, ?_⟩ <;>
      simp [getPlaybackInfo, trackRolesShape, jsTruthyStr, jsTruthyInt, ht, ha, hb]
  · refine ⟨?_, ?_, ?_⟩ <;>
      simp [getPlaybackInfo, metadataShape, jsTruthyStr, jsTruthyInt, ht, ha, hb]
  · refine ⟨?_, ?_, ?_⟩ <;>
      simp [getPlaybackInfo, metaDataShape, jsTruthyStr, jsTruthyInt, ht, ha, hb]
  · intro ip src track rest hstop
    simp [getPlaybackInfo, hstop]

/-- Witness for `c6_playback_metadata_shapes` at title `"T"`, artist `"A"`,
album `"B"`. -/
theorem c6_playback_metadata_shapes_witness :
    (("T" : String) ≠ "" ∧ ("A" : String) ≠ "" ∧ ("B" : String) ≠ "") ∧
    (((getPlaybackInfo true (.ok "wifi") (.ok (some [flatShape "T" "A" "B"]))).title = some "T" ∧
      (getPlaybackInfo true (.ok "wifi") (.ok (some [flatShape "T" "A" "B"]))).artist = some "A" ∧
      (getPlaybackInfo true (.ok "wifi") (.ok (some [flatShape "T" "A" "B"]))).album = some "B") ∧
     ((getPlaybackInfo true (.ok "wifi") (.ok (some [trackRolesShape "T" "A" "B"]))).title = some "T" ∧
      (getPlaybackInfo true (.ok "wifi") (.ok (some [trackRolesShape "T" "A" "B"]))).artist = some "A" ∧
      (getPlaybackInfo true (.ok "wifi") (.ok (some [trackRolesShape "T" "A" "B"]))).album = some "B") ∧
     ((getPlaybackInfo true (.ok "wifi") (.ok (some [metadataShape "T" "A" "B"]))).title = some "T" ∧
      (getPlaybackInfo true (.ok "wifi") (.ok (some [metadataShape "T" "A" "B"]))).artist = some "A" ∧
      (getPlaybackInfo true (.ok "wifi") (.ok (some [metadataShape "T" "A" "B"]))).album = some "B") ∧
     ((getPlaybackInfo true (.ok "wifi") (.ok (some [metaDataShape "T" "A" "B"]))).title = some "T" ∧
      (getPlaybackInfo true (.ok "wifi") (.ok (some [metaDataShape "T" "A" "B"]))).artist = some "A" ∧
      (getPlaybackInfo true (.ok "wifi") (.ok (some [metaDataShape "T" "A" "B"]))).album = some "B") ∧
     (∀ (ip : Bool) (src : String) (track : PlayerData) (rest : List PlayerData),
       track.state = some "stopped" →
       getPlaybackInfo ip (.ok src) (.ok (some (track :: rest))) =
         { isPlaying := ip, source := some src })) :=
  ⟨⟨by decide, by decide, by decide⟩,
   c6_playback_metadata_shapes "T" "A" "B" (by decide) (by decide) (by decide)⟩

/-- True of the display-update actions (`ImageUtil.updateAlbumArt` followed
by `setAlbumArtImage`), including clears. -/
def isDisplayAction : ArtAction → Bool
  | .displayArt _ => true
  | _ => false

/-- Helper: one `updateAlbumArt` execution on a non-streaming source with no
art currently stored leaves the state unchanged and performs no display
update. -/
theorem updateAlbumArt_nonstreaming_cleared (s : AlbumArtState) (source : String)
    (url : Option String) (hw : source ≠ "wifi") (hb : source ≠ "bluetooth")
    (hcur : s.currentAlbumArtUrl = none) :
    (updateAlbumArt s source url).1 = s ∧
    ∀ u, ArtAction.displayArt u ∉ (updateAlbumArt s source url).2 := by
  unfold updateAlbumArt
  by_cases hi : s.albumArtImageInit <;> by_cases hv : s.isAvailable <;>
    simp [hi, hv, hw, hb, hcur]

/-- Helper: a run of non-streaming polls from a state with no stored art
never issues a display update and never changes the state. -/
theorem updateAlbumArtRun_nonstreaming (s : AlbumArtState)
    (polls : List (String × Option String))
    (hall : ∀ p ∈ polls, p.1 ≠ "wifi" ∧ p.1 ≠ "bluetooth")
    (hcur : s.currentAlbumArtUrl = none) :
    (updateAlbumArtRun s polls).1 = s ∧
    ∀ u, ArtAction.displayArt u ∉ (updateAlbumArtRun s polls).2 := by
  induction polls generalizing s with
  | nil => simp [updateAlbumArtRun]
  | cons p rest ih =>
    obtain ⟨hw, hb⟩ := hall p (List.mem_cons_self p rest)
    obtain ⟨hstate, hnodisp⟩ := updateAlbumArt_nonstreaming_cleared s p.1 p.2 hw hb hcur
    have hrest := ih s (fun q hq => hall q (List.mem_cons_of_mem p hq)) hcur
    constructor
    · show (updateAlbumArtRun (updateAlbumArt s p.1 p.2).1 rest).1 = s
      rw [hstate]
      exact hrest.1
    · intro u
      show ArtAction.displayArt u ∉
        (updateAlbumArt s p.1 p.2).2 ++ (updateAlbumArtRun (updateAlbumArt s p.1 p.2).1 rest).2
      rw [List.mem_append, hstate]
      rintro (h | h)
      · exact hnodisp u h
      · exact hrest.2 u h

/-- C9: on a non-streaming source no album-art request is issued; if art was
displayed, the first such poll clears it (stored URL becomes `none`, one
display-clear call), further polls with no stored art perform no display
call, and over any run that stays non-streaming the clear happens exactly
once. -/
theorem c9_album_art_cleared_exactly_once (s : AlbumArtState) (source : String)
    (url : Option String)
    (hi : s.albumArtImageInit = true) (hv : s.isAvailable = true)
    (hw : source ≠ "wifi") (hb : source ≠ "bluetooth") :
    ArtAction.fetchArtUrl ∉ (updateAlbumArt s source url).2 ∧
    (s.currentAlbumArtUrl ≠ none →
      updateAlbumArt s source url =
        ({ s with currentAlbumArtUrl := none }, [.readSource, .displayArt none])) ∧
    (s.currentAlbumArtUrl = none →
      updateAlbumArt s source url = (s, [.readSource])) ∧
    (∀ polls : List (String × Option String),
      (∀ p ∈ polls, p.1 ≠ "wifi" ∧ p.1 ≠ "bluetooth") →
      s.currentAlbumArtUrl ≠ none →
      ((updateAlbumArtRun s ((source, url) :: polls)).2.filter isDisplayAction).length
        = 1) := by
  refine ⟨?_, ?_, ?_, ?_⟩
  · by_cases hcur : s.currentAlbumArtUrl = none <;>
      simp [updateAlbumArt, hi, hv, hw, hb, hcur]
  · intro hcur
    simp [updateAlbumArt, hi, hv, hw, hb, hcur]
  · intro hcur
    simp [updateAlbumArt, hi, hv, hw, hb, hcur]
  · intro polls hall hcur
    have hstep : updateAlbumArt s source url =
        ({ s with currentAlbumArtUrl := none }, [.readSource, .displayArt none]) := by
      simp [updateAlbumArt, hi, hv, hw, hb, hcur]
    have hrest := updateAlbumArtRun_nonstreaming { s with currentAlbumArtUrl := none }
      polls hall rfl
    have hfilter : ((updateAlbumArtRun { s with currentAlbumArtUrl := none } polls).2.filter
        isDisplayAction) = [] := by
      rw [List.filter_eq_nil_iff]
      intro x hx
      cases x with
      | readSource => simp [isDisplayAction]
      | fetchArtUrl => simp [isDisplayAction]
      | displayArt u => exact absurd hx (hrest.2 u)
    rw [show (updateAlbumArtRun s ((source, url) :: polls)).2
          = (updateAlbumArt s source url).2
            ++ (updateAlbumArtRun (updateAlbumArt s source url).1 polls).2 from rfl,
      hstep]
    simp [List.filter_append, hfilter, isDisplayAction]

/-- Witness for `c9_album_art_cleared_exactly_once`: source `"tv"` with art
`"x"` currently displayed. -/
theorem c9_album_art_cleared_exactly_once_witness :
    ((⟨true, true, some "x"⟩ : AlbumArtState).albumArtImageInit = true ∧
     (⟨true, true, some "x"⟩ : AlbumArtState).isAvailable = true ∧
     ("tv" : String) ≠ "wifi" ∧ ("tv" : String) ≠ "bluetooth") ∧
    (ArtAction.fetchArtUrl ∉ (updateAlbumArt ⟨true, true, some "x"⟩ "tv" none).2 ∧
     ((⟨true, true, some "x"⟩ : AlbumArtState).currentAlbumArtUrl ≠ none →
       updateAlbumArt ⟨true, true, some "x"⟩ "tv" none =
         ({ (⟨true, true, some "x"⟩ : AlbumArtState) with currentAlbumArtUrl := none },
          [.readSource, .displayArt none])) ∧
     ((⟨true, true, some "x"⟩ : AlbumArtState).currentAlbumArtUrl = none →
       updateAlbumArt ⟨true, true, some "x"⟩ "tv" none =
         (⟨true, true, some "x"⟩, [.readSource])) ∧
     (∀ polls : List (String × Option String),
       (∀ p ∈ polls, p.1 ≠ "wifi" ∧ p.1 ≠ "bluetooth") →
       (⟨true, true, some "x"⟩ : AlbumArtState).currentAlbumArtUrl ≠ none →
       ((updateAlbumArtRun ⟨true, true, some "x"⟩ (("tv", none) :: polls)).2.filter
           isDisplayAction).length = 1)) :=
  ⟨⟨rfl, rfl, by decide, by decide⟩,
   c9_album_art_cleared_exactly_once ⟨true, true, some "x"⟩ "tv" none rfl rfl
     (by decide) (by decide)⟩

end KefConnect
